import Mathlib

set_option maxHeartbeats 1000000

/-!
Shallow embedding of the Date library (Rust): validated Year/Month/Day/Age
value types, Date arithmetic and differences with rounding, the statutory
pension-age lookup tables, and the RataTemporis pension-ratio engine.
Machine integers (i32, u8, u32) are modelled as Int with explicit range
checks where the source performs checked arithmetic or narrowing
conversions; Rust `%` on signed integers is the truncated remainder
Int.tmod, Rust div_euclid is Int.ediv.
-/

/-- Errors raised by the chrono value types, mirroring the ChronoError enum. -/
inductive ChronoError where
  | YearError (year : Int)
  | MonthError (month : Int)
  | DayError (day : Int) (days_in_month : Int)
  | AgeError (age : Int)
  | ParseError (s : String)
  | OverflowError
deriving DecidableEq, Repr

/-- Decidable equality for Except results, used to evaluate the fallible
operations on concrete inputs. -/
instance exceptDecEq {ε α : Type} [DecidableEq ε] [DecidableEq α] :
    DecidableEq (Except ε α)
  | Except.error a, Except.error b =>
    if h : a = b then .isTrue (congrArg Except.error h)
    else .isFalse fun hh => h (Except.error.inj hh)
  | Except.error _, Except.ok _ => .isFalse fun hh => Except.noConfusion hh
  | Except.ok _, Except.error _ => .isFalse fun hh => Except.noConfusion hh
  | Except.ok a, Except.ok b =>
    if h : a = b then .isTrue (congrArg Except.ok h)
    else .isFalse fun hh => h (Except.ok.inj hh)

/-- Smallest i32 value. -/
def i32Min : Int := -2147483648

/-- Largest i32 value. -/
def i32Max : Int := 2147483647

/-- Rust checked_add on i32: none exactly when the raw addition overflows. -/
def checkedAddI32 (a b : Int) : Option Int :=
  if i32Min ≤ a + b ∧ a + b ≤ i32Max then some (a + b) else none

/-- Year::is_leap_year: divisible by 4 and not by 100, or divisible by 400. -/
def Year.is_leap_year (year : Int) : Bool :=
  (Int.tmod year 4 == 0 && !(Int.tmod year 100 == 0)) || Int.tmod year 400 == 0

/-- Year::new: valid iff between Year::MIN = 1900 and Year::MAX = 2100. -/
def Year.new (year : Int) : Except ChronoError Int :=
  if 1900 ≤ year ∧ year ≤ 2100 then Except.ok year
  else Except.error (ChronoError.YearError year)

/-- Year::add_years: checked i32 addition, then re-validation via Year::new. -/
def Year.add_years (year : Int) (years : Int) : Except ChronoError Int :=
  match checkedAddI32 year years with
  | none => Except.error ChronoError.OverflowError
  | some new_year => Year.new new_year

/-- Month::new: valid iff the number lies in the interval from 1 to 12. -/
def Month.new (number : Int) : Except ChronoError Int :=
  if 1 ≤ number ∧ number ≤ 12 then Except.ok number
  else Except.error (ChronoError.MonthError number)

/-- Month::days_in_month: 28 or 29 for February depending on leap year, 30
for April, June, September, November, 31 otherwise. -/
def Month.days_in_month (month : Int) (year : Int) : Int :=
  if month = 2 then (if Year.is_leap_year year then 29 else 28)
  else if month = 4 ∨ month = 6 ∨ month = 9 ∨ month = 11 then 30
  else 31

/-- Month::add_months: checked i32 addition of the month number, truncated
remainder wraparound onto the scale 1 to 12 (separate branches for positive
and non-positive totals, as in the source), year offset by Euclidean
division. -/
def Month.add_months (month : Int) (months : Int) : Except ChronoError (Int × Int) :=
  match checkedAddI32 month months with
  | none => Except.error ChronoError.OverflowError
  | some total =>
    let wrapped : Int :=
      if 0 < total then Int.tmod (total - 1) 12 + 1
      else Int.tmod (12 + Int.tmod (total - 1) 12) 12 + 1
    let year_offset : Int := Int.ediv (total - 1) 12
    match Month.new wrapped with
    | Except.error e => Except.error e
    | Except.ok new_month => Except.ok (new_month, year_offset)

/-- Day::new: valid iff between 1 and days_in_month of the given month and
year; the error carries the offending day and the month length. -/
def Day.new (day : Int) (month : Int) (year : Int) : Except ChronoError Int :=
  let days_in_month := Month.days_in_month month year
  if 1 ≤ day ∧ day ≤ days_in_month then Except.ok day
  else Except.error (ChronoError.DayError day days_in_month)

/-- Age::new on the u8 value: valid iff between Age::MIN = 0 and
Age::MAX = 115. -/
def Age.new (age : Int) : Except ChronoError Int :=
  if 0 ≤ age ∧ age ≤ 115 then Except.ok age
  else Except.error (ChronoError.AgeError age)

/-- TryFrom i32 for Age: the narrowing conversion to u8 fails with
OverflowError outside the interval from 0 to 255, then Age::new validates. -/
def Age.try_from (number : Int) : Except ChronoError Int :=
  if 0 ≤ number ∧ number ≤ 255 then Age.new number
  else Except.error ChronoError.OverflowError

/-- Age::add_years: checked i32 addition of the u8 age and the year count,
narrowing back to u8 (failure mapped to OverflowError), then Age::new. -/
def Age.add_years (age : Int) (years : Int) : Except ChronoError Int :=
  match checkedAddI32 age years with
  | none => Except.error ChronoError.OverflowError
  | some s =>
    if 0 ≤ s ∧ s ≤ 255 then Age.new s
    else Except.error ChronoError.OverflowError

/-- The Date struct: a Year, Month and Day triple (each stored as its
numeric value). -/
structure Date where
  year : Int
  month : Int
  day : Int
deriving DecidableEq, Repr

/-- Validity of a Date as established by the validating constructors: year
within bounds, month in 1..12, day in 1..days_in_month. -/
def Date.Valid (d : Date) : Prop :=
  1900 ≤ d.year ∧ d.year ≤ 2100 ∧ 1 ≤ d.month ∧ d.month ≤ 12 ∧
    1 ≤ d.day ∧ d.day ≤ Month.days_in_month d.month d.year

instance (d : Date) : Decidable d.Valid :=
  inferInstanceAs (Decidable (1900 ≤ d.year ∧ d.year ≤ 2100 ∧ 1 ≤ d.month ∧
    d.month ≤ 12 ∧ 1 ≤ d.day ∧ d.day ≤ Month.days_in_month d.month d.year))

/-- The derived Ord on Date: lexicographic on (year, month, day). -/
def Date.lt (a b : Date) : Prop :=
  a.year < b.year ∨ (a.year = b.year ∧
    (a.month < b.month ∨ (a.month = b.month ∧ a.day < b.day)))

instance (a b : Date) : Decidable (Date.lt a b) :=
  inferInstanceAs (Decidable (a.year < b.year ∨ (a.year = b.year ∧
    (a.month < b.month ∨ (a.month = b.month ∧ a.day < b.day)))))

/-- The derived non-strict order on Date. -/
def Date.le (a b : Date) : Prop :=
  Date.lt a b ∨ a = b

instance (a b : Date) : Decidable (Date.le a b) :=
  inferInstanceAs (Decidable (Date.lt a b ∨ a = b))

/-- The sorting step shared by month_difference and year_difference:
(first, last) with first the earlier-or-equal date. -/
def Date.sorted_pair (a b : Date) : Date × Date :=
  if Date.lt a b then (a, b) else (b, a)

/-- Date::end_of_month: day set to days_in_month of the current month. -/
def Date.end_of_month (d : Date) : Date :=
  ⟨d.year, d.month, Month.days_in_month d.month d.year⟩

/-- Date::add_years: adds to the Year only, keeping Month and Day. -/
def Date.add_years (date : Date) (years : Int) : Except ChronoError Date :=
  match Year.add_years date.year years with
  | Except.error e => Except.error e
  | Except.ok new_year => Except.ok ⟨new_year, date.month, date.day⟩

/-- Date::add_months: Month::add_months for the new month and year offset,
Year::add_years for the new year, then the day is clamped to the minimum of
the original day and the new month length before Day::new. -/
def Date.add_months (date : Date) (months : Int) : Except ChronoError Date :=
  match Month.add_months date.month months with
  | Except.error e => Except.error e
  | Except.ok (new_month, year_offset) =>
    match Year.add_years date.year year_offset with
    | Except.error e => Except.error e
    | Except.ok new_year =>
      let max_day := Month.days_in_month new_month new_year
      let day_v := min date.day max_day
      match Day.new day_v new_month new_year with
      | Except.error e => Except.error e
      | Except.ok new_day => Except.ok ⟨new_year, new_month, new_day⟩

/-- The cumulative MONTH_DAYS table of Date::to_days, indexed by month. -/
def Date.month_days_table (month : Int) : Int :=
  if month = 1 then 0
  else if month = 2 then 31
  else if month = 3 then 59
  else if month = 4 then 90
  else if month = 5 then 120
  else if month = 6 then 151
  else if month = 7 then 181
  else if month = 8 then 212
  else if month = 9 then 243
  else if month = 10 then 273
  else if month = 11 then 304
  else 334

/-- Date::to_days: proleptic day count with leap corrections by truncated
division (Rust integer division) and the cumulative month table. -/
def Date.to_days (d : Date) : Int :=
  let full_years := d.year - 1
  full_years * 365 + Int.tdiv full_years 4 - Int.tdiv full_years 100 +
    Int.tdiv full_years 400 + Date.month_days_table d.month + d.day +
    (if 2 < d.month ∧ Year.is_leap_year d.year then 1 else 0)

/-- Date::day_difference: absolute value of the day-count delta. -/
def Date.day_difference (a b : Date) : Int :=
  |Date.to_days a - Date.to_days b|

/-- The three rounding modes, in source order. -/
inductive Rounding where
  | Nearest
  | Floor
  | Ceil
deriving DecidableEq, Repr

/-- The floor month count of Date::month_difference: (year delta times 12
plus month delta) on the sorted pair, decremented by 1 when the later day
of month is smaller than the earlier one unless both dates are at their
month end. -/
def Date.month_floor_diff (a b : Date) : Int :=
  let f := (Date.sorted_pair a b).1
  let l := (Date.sorted_pair a b).2
  let base := (l.year - f.year) * 12 + (l.month - f.month)
  let first_is_eom := f.day = Month.days_in_month f.month f.year
  let last_is_eom := l.day = Month.days_in_month l.month l.year
  if ¬(first_is_eom ∧ last_is_eom) ∧ l.day < f.day then base - 1 else base

/-- Date::month_difference: the floor count adjusted by the rounding mode. -/
def Date.month_difference (a b : Date) (rounding : Rounding) : Int :=
  let f := (Date.sorted_pair a b).1
  let l := (Date.sorted_pair a b).2
  match rounding with
  | Rounding.Floor => Date.month_floor_diff a b
  | Rounding.Ceil =>
    if f.day ≠ l.day then Date.month_floor_diff a b + 1
    else Date.month_floor_diff a b
  | Rounding.Nearest =>
    if 15 ≤ Int.tmod (f.day - l.day) 30 then Date.month_floor_diff a b + 1
    else Date.month_floor_diff a b

/-- The floor year count of Date::year_difference: year delta on the sorted
pair, decremented by 1 when the (month, day) anchor of the later date
lexicographically precedes that of the earlier date. -/
def Date.year_floor_diff (a b : Date) : Int :=
  let f := (Date.sorted_pair a b).1
  let l := (Date.sorted_pair a b).2
  let base := l.year - f.year
  if l.month < f.month ∨ (l.month = f.month ∧ l.day < f.day) then base - 1
  else base

/-- Date::year_difference: the floor count adjusted by the rounding mode. -/
def Date.year_difference (a b : Date) (rounding : Rounding) : Int :=
  let f := (Date.sorted_pair a b).1
  let l := (Date.sorted_pair a b).2
  match rounding with
  | Rounding.Floor => Date.year_floor_diff a b
  | Rounding.Ceil =>
    if ¬(f.month = l.month ∧ f.day = l.day) then Date.year_floor_diff a b + 1
    else Date.year_floor_diff a b
  | Rounding.Nearest =>
    let month_diff := Int.tmod (l.month - f.month + 12) 12
    if 6 < month_diff then Date.year_floor_diff a b + 1
    else if month_diff < 6 then Date.year_floor_diff a b
    else if 0 ≤ l.day - f.day then Date.year_floor_diff a b + 1
    else Date.year_floor_diff a b

/-- Date::actuarial_age: shifts the effective date by 6 months, then the
floor year difference to the end of the shifted month, with the +1
correction when self is the 1st of the month whose number equals the
shifted month number plus 1 reduced modulo 12 (u8 arithmetic in the
source, hence non-negative remainder). -/
def Date.actuarial_age (self effective_date : Date) : Except ChronoError Int :=
  match Date.add_months effective_date 6 with
  | Except.error e => Except.error e
  | Except.ok eed =>
    if self.day = 1 ∧ self.month = (eed.month + 1) % 12 then
      Age.try_from
        (Date.year_difference self (Date.end_of_month eed) Rounding.Floor + 1)
    else
      Age.try_from
        (Date.year_difference self (Date.end_of_month eed) Rounding.Floor)

/-- PensionMonths::from_birthyear: the SGB VI statutory month table. -/
def PensionMonths.from_birthyear (birthyear : Int) : Int :=
  if birthyear ≤ 1946 then 0
  else if birthyear = 1947 then 1
  else if birthyear = 1948 then 2
  else if birthyear = 1949 then 3
  else if birthyear = 1950 then 4
  else if birthyear = 1951 then 5
  else if birthyear = 1952 then 6
  else if birthyear = 1953 then 7
  else if birthyear = 1954 then 8
  else if birthyear = 1955 then 9
  else if birthyear = 1956 then 10
  else if birthyear = 1957 then 11
  else if birthyear = 1958 then 0
  else if birthyear = 1959 then 2
  else if birthyear = 1960 then 4
  else if birthyear = 1961 then 6
  else if birthyear = 1962 then 8
  else if birthyear = 1963 then 10
  else 0

/-- PensionYears::from_birthyear: the SGB VI statutory year table. -/
def PensionYears.from_birthyear (birthyear : Int) : Int :=
  if birthyear ≤ 1946 then 65
  else if birthyear ≤ 1957 then 65
  else if birthyear ≤ 1963 then 66
  else 67

/-- The PensionAge struct: pension years and pension months. -/
structure PensionAge where
  pension_years : Int
  pension_months : Int
deriving DecidableEq, Repr

/-- PensionAge::from_birthyear: combines the two statutory tables. -/
def PensionAge.from_birthyear (birthyear : Int) : PensionAge :=
  ⟨PensionYears.from_birthyear birthyear, PensionMonths.from_birthyear birthyear⟩

/-- PensionAge::total_months: years times 12 plus months. -/
def PensionAge.total_months (pa : PensionAge) : Int :=
  pa.pension_years * 12 + pa.pension_months

/-- Errors of the RataTemporis engine. -/
inductive RataTemporisError where
  | WrongOrder (first_date second_date : Date)
  | YearError (pension_years : Int)
  | MonthError (pension_months : Int)
  | NegativeDifference
deriving DecidableEq, Repr

/-- RataTemporisError::check_order: first_date must not be after
second_date. -/
def RataTemporisError.check_order (first_date second_date : Date) :
    Except RataTemporisError Unit :=
  if Date.le first_date second_date then Except.ok ()
  else Except.error (RataTemporisError.WrongOrder first_date second_date)

/-- The accuracy selector for the RataTemporis date differences. -/
inductive Accuracy where
  | DayExact
  | MonthExact
  | YearExact
deriving DecidableEq, Repr

/-- The RataTemporis struct: birth, entry and exit dates. -/
structure RataTemporis where
  birth_date : Date
  entry_date : Date
  exit_date : Date
deriving DecidableEq, Repr

/-- RataTemporis::new: validates birth_date before entry_date before
exit_date. -/
def RataTemporis.new (birth_date entry_date exit_date : Date) :
    Except RataTemporisError RataTemporis :=
  match RataTemporisError.check_order birth_date entry_date with
  | Except.error e => Except.error e
  | Except.ok _ =>
    match RataTemporisError.check_order entry_date exit_date with
    | Except.error e => Except.error e
    | Except.ok _ => Except.ok ⟨birth_date, entry_date, exit_date⟩

/-- RataTemporis::actual_service: the date difference between entry and
exit per the accuracy, failing on a negative value (the i32 to u32
narrowing of the source). -/
def RataTemporis.actual_service (rt : RataTemporis) (accuracy : Accuracy)
    (rounding : Rounding) : Except RataTemporisError Int :=
  let m : Int :=
    match accuracy with
    | Accuracy.DayExact => Date.day_difference rt.entry_date rt.exit_date
    | Accuracy.MonthExact => Date.month_difference rt.entry_date rt.exit_date rounding
    | Accuracy.YearExact => Date.year_difference rt.entry_date rt.exit_date rounding
  if 0 ≤ m then Except.ok m else Except.error RataTemporisError.NegativeDifference

/-- RataTemporis::possible_service: pension date = birth date plus pension
years plus pension months (failures mapped to the pension year and month
errors), entry must not be after the pension date, then the date
difference between entry and pension date per the accuracy. -/
def RataTemporis.possible_service (rt : RataTemporis) (pension_age : PensionAge)
    (accuracy : Accuracy) (rounding : Rounding) : Except RataTemporisError Int :=
  let pension_years := pension_age.pension_years
  let pension_months := pension_age.pension_months
  match Date.add_years rt.birth_date pension_years with
  | Except.error _ => Except.error (RataTemporisError.YearError pension_years)
  | Except.ok d1 =>
    match Date.add_months d1 pension_months with
    | Except.error _ => Except.error (RataTemporisError.MonthError pension_months)
    | Except.ok pension_date =>
      match RataTemporisError.check_order rt.entry_date pension_date with
      | Except.error e => Except.error e
      | Except.ok _ =>
        let n : Int :=
          match accuracy with
          | Accuracy.DayExact => Date.day_difference rt.entry_date pension_date
          | Accuracy.MonthExact => Date.month_difference rt.entry_date pension_date rounding
          | Accuracy.YearExact => Date.year_difference rt.entry_date pension_date rounding
        if 0 ≤ n then Except.ok n
        else Except.error RataTemporisError.NegativeDifference

/-- RataTemporis::rata_temporis: actual service divided by possible
service, with the zero possible service special case returning 0. The f64
quotient of the two non-negative integer counts is modelled as the exact
rational value. -/
def RataTemporis.rata_temporis (rt : RataTemporis) (pension_age : PensionAge)
    (accuracy : Accuracy) (rounding : Rounding) : Except RataTemporisError Rat :=
  match rt.actual_service accuracy rounding with
  | Except.error e => Except.error e
  | Except.ok m =>
    match rt.possible_service pension_age accuracy rounding with
    | Except.error e => Except.error e
    | Except.ok n =>
      if n = 0 then Except.ok 0
      else Except.ok ((m : Rat) / (n : Rat))

/-- Written from the words of the specification for the floor month count:
sort the pair into the earlier-or-equal and the later date, take year delta
times 12 plus month delta, and decrement by 1 when the later day of month
is smaller than the earlier one, except when both dates fall on the last
day of their respective months. -/
def month_difference_floor_spec (a b : Date) : Int :=
  let f := if Date.le a b then a else b
  let l := if Date.le a b then b else a
  let base := (l.year - f.year) * 12 + (l.month - f.month)
  if l.day < f.day ∧ ¬(f.day = Month.days_in_month f.month f.year ∧
      l.day = Month.days_in_month l.month l.year) then base - 1
  else base

/-- Truncated remainder of a negated dividend is the negated truncated
remainder. -/
lemma tmod_neg_left (a b : Int) : Int.tmod (-a) b = -Int.tmod a b := by
  rw [Int.tmod_def, Int.tmod_def, Int.neg_tdiv]
  ring

/-- The wraparound expression of Month::add_months equals the Euclidean
remainder form on both branches. -/
lemma month_wrapped_eq (total : Int) :
    (if 0 < total then Int.tmod (total - 1) 12 + 1
     else Int.tmod (12 + Int.tmod (total - 1) 12) 12 + 1) =
      (total - 1) % 12 + 1 := by
  split_ifs with h
  · rw [Int.tmod_eq_emod (by omega) (by norm_num)]
  · have h1 : Int.tmod (total - 1) 12 = -Int.tmod (1 - total) 12 := by
      have h0 := tmod_neg_left (1 - total) 12
      have e : -(1 - total) = total - 1 := by ring
      rw [e] at h0
      exact h0
    rw [h1, Int.tmod_eq_emod (show (0 : Int) ≤ 1 - total by omega) (by norm_num)]
    have h2 : 0 ≤ (1 - total) % 12 := Int.emod_nonneg _ (by norm_num)
    have h3 : (1 - total) % 12 < 12 := Int.emod_lt_of_pos _ (by norm_num)
    rw [Int.tmod_eq_emod (by omega) (by norm_num)]
    omega

/-- Month::add_months never fails once the checked addition succeeds: the
wrapped month is always in range. -/
lemma month_add_months_eq (m n : Int) (hno : i32Min ≤ m + n ∧ m + n ≤ i32Max) :
    Month.add_months m n =
      Except.ok ((m + n - 1) % 12 + 1, (m + n - 1) / 12) := by
  unfold Month.add_months checkedAddI32
  rw [if_pos hno]
  simp only
  rw [month_wrapped_eq]
  have h2 : 0 ≤ (m + n - 1) % 12 := Int.emod_nonneg _ (by norm_num)
  have h3 : (m + n - 1) % 12 < 12 := Int.emod_lt_of_pos _ (by norm_num)
  unfold Month.new
  rw [if_pos (by omega)]
  rfl

/-- Sorting a pair of dates does not depend on the argument order. -/
lemma sorted_pair_comm (a b : Date) : Date.sorted_pair a b = Date.sorted_pair b a := by
  obtain ⟨y1, m1, d1⟩ := a
  obtain ⟨y2, m2, d2⟩ := b
  unfold Date.sorted_pair Date.lt
  split_ifs with h1 h2 h2 <;>
    simp only [Prod.mk.injEq, Date.mk.injEq] at * <;> omega

/-- The floor month count is symmetric in its two dates. -/
lemma month_floor_diff_symm (a b : Date) :
    Date.month_floor_diff a b = Date.month_floor_diff b a := by
  unfold Date.month_floor_diff
  rw [sorted_pair_comm]

/-- Date::month_difference is symmetric in its two dates. -/
lemma month_difference_symm (a b : Date) (r : Rounding) :
    Date.month_difference a b r = Date.month_difference b a r := by
  unfold Date.month_difference
  rw [sorted_pair_comm a b, month_floor_diff_symm a b]

/-- The floor year count is symmetric in its two dates. -/
lemma year_floor_diff_symm (a b : Date) :
    Date.year_floor_diff a b = Date.year_floor_diff b a := by
  unfold Date.year_floor_diff
  rw [sorted_pair_comm]

/-- Date::year_difference is symmetric in its two dates. -/
lemma year_difference_symm (a b : Date) (r : Rounding) :
    Date.year_difference a b r = Date.year_difference b a r := by
  unfold Date.year_difference
  rw [sorted_pair_comm a b, year_floor_diff_symm a b]

/-- The floor month count is non-negative whenever both months are in
range. -/
lemma month_floor_diff_nonneg (a b : Date) (hma1 : 1 ≤ a.month)
    (hma2 : a.month ≤ 12) (hmb1 : 1 ≤ b.month) (hmb2 : b.month ≤ 12) :
    0 ≤ Date.month_floor_diff a b := by
  unfold Date.month_floor_diff Date.sorted_pair
  by_cases h : Date.lt a b <;>
    [simp only [if_pos h]; simp only [if_neg h]] <;>
    unfold Date.lt at h <;> split_ifs with hcond <;> omega

/-- Date::month_difference is non-negative whenever both months are in
range. -/
lemma month_difference_nonneg (a b : Date) (hma1 : 1 ≤ a.month)
    (hma2 : a.month ≤ 12) (hmb1 : 1 ≤ b.month) (hmb2 : b.month ≤ 12)
    (r : Rounding) : 0 ≤ Date.month_difference a b r := by
  have hf := month_floor_diff_nonneg a b hma1 hma2 hmb1 hmb2
  unfold Date.month_difference
  cases r <;> simp only [] <;> (try split_ifs) <;> omega

/-- The floor year count is non-negative. -/
lemma year_floor_diff_nonneg (a b : Date) : 0 ≤ Date.year_floor_diff a b := by
  unfold Date.year_floor_diff Date.sorted_pair
  by_cases h : Date.lt a b <;>
    [simp only [if_pos h]; simp only [if_neg h]] <;>
    unfold Date.lt at h <;> split_ifs with hcond <;> omega

/-- Date::year_difference is non-negative. -/
lemma year_difference_nonneg (a b : Date) (r : Rounding) :
    0 ≤ Date.year_difference a b r := by
  have hf := year_floor_diff_nonneg a b
  unfold Date.year_difference
  cases r <;> simp only [] <;> (try split_ifs) <;> omega

/-- Date::day_difference is symmetric in its two dates. -/
lemma day_difference_symm (a b : Date) :
    Date.day_difference a b = Date.day_difference b a := by
  unfold Date.day_difference
  exact abs_sub_comm _ _

/-- Date::day_difference of a date with itself vanishes. -/
lemma day_difference_self (a : Date) : Date.day_difference a a = 0 := by
  unfold Date.day_difference
  simp


/-- Year::add_years written as a nested conditional on the sum. -/
lemma year_add_years_eq (y ny : Int) :
    Year.add_years y ny =
      if i32Min ≤ y + ny ∧ y + ny ≤ i32Max then
        (if 1900 ≤ y + ny ∧ y + ny ≤ 2100 then Except.ok (y + ny)
         else Except.error (ChronoError.YearError (y + ny)))
      else Except.error ChronoError.OverflowError := by
  unfold Year.add_years checkedAddI32 Year.new
  by_cases h1 : i32Min ≤ y + ny ∧ y + ny ≤ i32Max <;>
    by_cases h2 : 1900 ≤ y + ny ∧ y + ny ≤ 2100 <;>
      simp [h1, h2]

/-- Age::add_years written as a nested conditional on the sum. -/
lemma age_add_years_eq (a na : Int) :
    Age.add_years a na =
      if i32Min ≤ a + na ∧ a + na ≤ i32Max then
        (if 0 ≤ a + na ∧ a + na ≤ 255 then
          (if 0 ≤ a + na ∧ a + na ≤ 115 then Except.ok (a + na)
           else Except.error (ChronoError.AgeError (a + na)))
         else Except.error ChronoError.OverflowError)
      else Except.error ChronoError.OverflowError := by
  unfold Age.add_years checkedAddI32 Age.new
  by_cases h1 : i32Min ≤ a + na ∧ a + na ≤ i32Max <;>
    by_cases h2 : 0 ≤ a + na ∧ a + na ≤ 255 <;>
      by_cases h3 : 0 ≤ a + na ∧ a + na ≤ 115 <;>
        simp [h1, h2, h3]

/-- C1: month_difference with Floor sorts the pair, takes year delta times
12 plus month delta, and decrements by 1 when the later day of month is
smaller than the earlier one except when both dates are at their month
end; in particular 31 Mar 2004 to 30 Apr 2004 gives 1. -/
theorem month_difference_floor_correct (a b : Date) :
    Date.month_difference a b Rounding.Floor = month_difference_floor_spec a b ∧
    Date.month_difference ⟨2004, 3, 31⟩ ⟨2004, 4, 30⟩ Rounding.Floor = 1 := by
  refine ⟨?_, by decide⟩
  rcases eq_or_ne a b with rfl | hne
  · have h1 : ¬ Date.lt a a := by unfold Date.lt; omega
    have h2 : Date.le a a := Or.inr rfl
    unfold Date.month_difference Date.month_floor_diff Date.sorted_pair
      month_difference_floor_spec
    simp only [if_neg h1, if_pos h2]
    split_ifs <;> first | rfl | omega
  · by_cases h : Date.lt a b
    · have hle : Date.le a b := Or.inl h
      unfold Date.month_difference Date.month_floor_diff Date.sorted_pair
        month_difference_floor_spec
      simp only [if_pos h, if_pos hle]
      split_ifs <;> first | rfl | tauto
    · have hle : ¬ Date.le a b := fun hc => hc.elim h hne
      unfold Date.month_difference Date.month_floor_diff Date.sorted_pair
        month_difference_floor_spec
      simp only [if_neg h, if_neg hle]
      split_ifs <;> first | rfl | tauto

/-- C3: month_difference with Nearest equals the Floor result plus 1
exactly when the truncated remainder of (first day minus last day) by 30
is at least 15, and equals the Floor result otherwise. -/
theorem month_difference_nearest_correct (a b : Date) :
    Date.month_difference a b Rounding.Nearest =
      Date.month_difference a b Rounding.Floor +
        (if 15 ≤ Int.tmod ((Date.sorted_pair a b).1.day -
            (Date.sorted_pair a b).2.day) 30 then 1 else 0) := by
  unfold Date.month_difference
  dsimp only
  split_ifs <;> omega

/-- C8: Month::add_months performs Euclidean wraparound on the 1 to 12
scale with the year offset counting the whole year boundaries crossed;
in particular December plus 1 gives January with offset 1 and January
minus 24 gives January with offset -2. -/
theorem month_add_months_correct (m n : Int) (_hm : 1 ≤ m ∧ m ≤ 12)
    (hof : i32Min ≤ m + n ∧ m + n ≤ i32Max) :
    Month.add_months m n = Except.ok ((m + n - 1) % 12 + 1, (m + n - 1) / 12) ∧
    Month.add_months 12 1 = Except.ok (1, 1) ∧
    Month.add_months 1 (-24) = Except.ok (1, -2) :=
  ⟨month_add_months_eq m n hof, by decide, by decide⟩

/-- Witness for C8 at December plus one month. -/
theorem month_add_months_correct_witness :
    ((1 : Int) ≤ 12 ∧ (12 : Int) ≤ 12) ∧
    (i32Min ≤ (12 : Int) + 1 ∧ (12 : Int) + 1 ≤ i32Max) ∧
    (Month.add_months 12 1 =
        Except.ok (((12 : Int) + 1 - 1) % 12 + 1, ((12 : Int) + 1 - 1) / 12) ∧
      Month.add_months 12 1 = Except.ok (1, 1) ∧
      Month.add_months 1 (-24) = Except.ok (1, -2)) :=
  ⟨by decide, by decide, month_add_months_correct 12 1 (by decide) (by decide)⟩

/-- C10: a valid 29 Feb 2024 plus one year yields Ok of a date reading
29 Feb 2025 although February 2025 has only 28 days, so the day-in-month
invariant is not preserved by Date::add_years. -/
theorem add_years_day_invariant_broken :
    Date.Valid ⟨2024, 2, 29⟩ ∧
    Date.add_years ⟨2024, 2, 29⟩ 1 = Except.ok ⟨2025, 2, 29⟩ ∧
    Month.days_in_month 2 2025 = 28 ∧
    ¬ Date.Valid ⟨2025, 2, 29⟩ := by decide

/-- C9 counterexample: for Age 20 plus 300 years the raw i32 addition does
not overflow and the sum 320 is outside the Age bounds, yet the code
returns OverflowError rather than the range error of the constructor. -/
theorem age_add_years_claim_counterexample :
    (i32Min ≤ (20 : Int) + 300 ∧ (20 : Int) + 300 ≤ i32Max) ∧
    ¬(0 ≤ (20 : Int) + 300 ∧ (20 : Int) + 300 ≤ 115) ∧
    Age.add_years 20 300 = Except.error ChronoError.OverflowError ∧
    Age.add_years 20 300 ≠ Except.error (ChronoError.AgeError 320) := by decide

/-- C9 amended: Year::add_years fails with OverflowError exactly on raw
i32 overflow, with the constructor range error on sums outside the year
bounds, and succeeds otherwise; Age::add_years fails with OverflowError
exactly when the sum leaves the u8 range 0 to 255 (which covers raw i32
overflow), fails with the constructor range error AgeError on sums in 116
to 255, and succeeds on sums in 0 to 115. -/
theorem add_years_error_modes (y ny a na : Int) (_hy : 1900 ≤ y ∧ y ≤ 2100)
    (_ha : 0 ≤ a ∧ a ≤ 115) :
    (Year.add_years y ny = Except.error ChronoError.OverflowError ↔
      ¬(i32Min ≤ y + ny ∧ y + ny ≤ i32Max)) ∧
    ((i32Min ≤ y + ny ∧ y + ny ≤ i32Max) → ¬(1900 ≤ y + ny ∧ y + ny ≤ 2100) →
      Year.add_years y ny = Except.error (ChronoError.YearError (y + ny))) ∧
    ((i32Min ≤ y + ny ∧ y + ny ≤ i32Max) → (1900 ≤ y + ny ∧ y + ny ≤ 2100) →
      Year.add_years y ny = Except.ok (y + ny)) ∧
    (Age.add_years a na = Except.error ChronoError.OverflowError ↔
      (a + na < 0 ∨ 255 < a + na)) ∧
    ((116 ≤ a + na ∧ a + na ≤ 255) →
      Age.add_years a na = Except.error (ChronoError.AgeError (a + na))) ∧
    ((0 ≤ a + na ∧ a + na ≤ 115) → Age.add_years a na = Except.ok (a + na)) := by
  rw [year_add_years_eq, age_add_years_eq]
  refine ⟨?_, ?_, ?_, ?_, ?_, ?_⟩ <;>
    split_ifs <;> simp_all [i32Min, i32Max] <;> omega

/-- Witness for C9 amended at Year 2000 plus 10 and Age 20 plus 115. -/
theorem add_years_error_modes_witness :
    ((1900 : Int) ≤ 2000 ∧ (2000 : Int) ≤ 2100) ∧
    ((0 : Int) ≤ 20 ∧ (20 : Int) ≤ 115) ∧
    ((Year.add_years 2000 10 = Except.error ChronoError.OverflowError ↔
        ¬(i32Min ≤ (2000 : Int) + 10 ∧ (2000 : Int) + 10 ≤ i32Max)) ∧
      ((i32Min ≤ (2000 : Int) + 10 ∧ (2000 : Int) + 10 ≤ i32Max) →
        ¬(1900 ≤ (2000 : Int) + 10 ∧ (2000 : Int) + 10 ≤ 2100) →
        Year.add_years 2000 10 =
          Except.error (ChronoError.YearError ((2000 : Int) + 10))) ∧
      ((i32Min ≤ (2000 : Int) + 10 ∧ (2000 : Int) + 10 ≤ i32Max) →
        (1900 ≤ (2000 : Int) + 10 ∧ (2000 : Int) + 10 ≤ 2100) →
        Year.add_years 2000 10 = Except.ok ((2000 : Int) + 10)) ∧
      (Age.add_years 20 115 = Except.error ChronoError.OverflowError ↔
        ((20 : Int) + 115 < 0 ∨ 255 < (20 : Int) + 115)) ∧
      ((116 ≤ (20 : Int) + 115 ∧ (20 : Int) + 115 ≤ 255) →
        Age.add_years 20 115 =
          Except.error (ChronoError.AgeError ((20 : Int) + 115))) ∧
      ((0 ≤ (20 : Int) + 115 ∧ (20 : Int) + 115 ≤ 115) →
        Age.add_years 20 115 = Except.ok ((20 : Int) + 115))) :=
  ⟨by decide, by decide, add_years_error_modes 2000 10 20 115 (by decide) (by decide)⟩

/-- Every month of the calendar has at least one day. -/
lemma days_in_month_pos (m y : Int) : 1 ≤ Month.days_in_month m y := by
  unfold Month.days_in_month
  split_ifs <;> omega

/-- The only error Month::add_months can raise is the overflow of the
checked addition: the wrapped month always passes Month::new. -/
lemma month_add_months_error_overflow (m n : Int) (e : ChronoError)
    (h : Month.add_months m n = Except.error e) :
    e = ChronoError.OverflowError := by
  by_cases hc : i32Min ≤ m + n ∧ m + n ≤ i32Max
  · rw [month_add_months_eq m n hc] at h
    exact absurd h (by simp)
  · unfold Month.add_months checkedAddI32 at h
    rw [if_neg hc] at h
    simp only [Except.error.injEq] at h
    exact h.symm

/-- The errors of Year::add_years are OverflowError or a YearError. -/
lemma year_add_years_error (y n : Int) (e : ChronoError)
    (h : Year.add_years y n = Except.error e) :
    e = ChronoError.OverflowError ∨ ∃ yv, e = ChronoError.YearError yv := by
  rw [year_add_years_eq] at h
  split_ifs at h <;> injection h with h3 <;>
    first
      | exact Or.inr ⟨y + n, h3.symm⟩
      | exact Or.inl h3.symm

/-- C2: whenever actuarial_age succeeds its value is the floor year
difference between the birth date and the end of month of the effective
date shifted by 6 months, plus 1 exactly when the birth day is the 1st and
the birth month equals the shifted month number plus 1 reduced modulo
12. -/
theorem actuarial_age_correct (b e : Date) (a : Int)
    (h : Date.actuarial_age b e = Except.ok a) :
    ∃ eed, Date.add_months e 6 = Except.ok eed ∧
      a = Date.year_difference b (Date.end_of_month eed) Rounding.Floor +
        (if b.day = 1 ∧ b.month = (eed.month + 1) % 12 then 1 else 0) := by
  unfold Date.actuarial_age at h
  rcases he : Date.add_months e 6 with err | eed
  · rw [he] at h
    exact absurd h (by simp)
  · rw [he] at h
    dsimp only at h
    refine ⟨eed, rfl, ?_⟩
    by_cases hc : b.day = 1 ∧ b.month = (eed.month + 1) % 12
    · rw [if_pos hc] at h ⊢
      unfold Age.try_from Age.new at h
      split_ifs at h
      all_goals injection h with h3
      all_goals omega
    · rw [if_neg hc] at h ⊢
      unfold Age.try_from Age.new at h
      split_ifs at h
      all_goals injection h with h3
      all_goals omega

/-- Witness for C2 at birth 1 Jan 2000 and effective date 31 Dec 2024. -/
theorem actuarial_age_correct_witness :
    Date.actuarial_age ⟨2000, 1, 1⟩ ⟨2024, 12, 31⟩ = Except.ok 25 ∧
    (∃ eed, Date.add_months ⟨2024, 12, 31⟩ 6 = Except.ok eed ∧
      (25 : Int) = Date.year_difference ⟨2000, 1, 1⟩ (Date.end_of_month eed)
          Rounding.Floor +
        (if (⟨2000, 1, 1⟩ : Date).day = 1 ∧
            (⟨2000, 1, 1⟩ : Date).month = (eed.month + 1) % 12 then 1
         else 0)) :=
  ⟨by decide, actuarial_age_correct ⟨2000, 1, 1⟩ ⟨2024, 12, 31⟩ 25 (by decide)⟩

/-- C5: Date::add_months succeeds with the day clamped to the minimum of
the original day and the new month length, and it can only fail with
OverflowError or a YearError, never because the original day exceeds the
new month length. -/
theorem add_months_clamps (d : Date) (n : Int) (hd : d.Valid) :
    (∀ res, Date.add_months d n = Except.ok res →
      ∃ nm yo, Month.add_months d.month n = Except.ok (nm, yo) ∧
        Year.add_years d.year yo = Except.ok res.year ∧
        res.month = nm ∧
        res.day = min d.day (Month.days_in_month nm res.year)) ∧
    (∀ err, Date.add_months d n = Except.error err →
      err = ChronoError.OverflowError ∨
        ∃ yv, err = ChronoError.YearError yv) := by
  constructor
  · intro res hres
    unfold Date.add_months at hres
    rcases hm : Month.add_months d.month n with e | ⟨nm, yo⟩
    · rw [hm] at hres
      exact absurd hres (by simp)
    · rw [hm] at hres
      dsimp only at hres
      rcases hy : Year.add_years d.year yo with e | ny
      · rw [hy] at hres
        exact absurd hres (by simp)
      · rw [hy] at hres
        dsimp only at hres
        unfold Day.new at hres
        dsimp only at hres
        split_ifs at hres with hcond
        all_goals injection hres with hres2
        subst hres2
        exact ⟨nm, yo, rfl, hy, rfl, rfl⟩
  · intro err herr
    unfold Date.add_months at herr
    rcases hm : Month.add_months d.month n with e | ⟨nm, yo⟩
    · rw [hm] at herr
      simp only [Except.error.injEq] at herr
      subst herr
      exact Or.inl (month_add_months_error_overflow _ _ _ hm)
    · rw [hm] at herr
      dsimp only at herr
      rcases hy : Year.add_years d.year yo with e2 | ny
      · rw [hy] at herr
        simp only [Except.error.injEq] at herr
        subst herr
        exact year_add_years_error _ _ _ hy
      · rw [hy] at herr
        dsimp only at herr
        unfold Day.new at herr
        dsimp only at herr
        split_ifs at herr with hcond
        all_goals first
          | exact Except.noConfusion herr
          | exact (hcond ⟨le_min hd.2.2.2.2.1 (days_in_month_pos nm ny),
              min_le_right _ _⟩).elim

/-- Witness for C5 at 31 Jan 2024 plus one month, which clamps to 29 Feb
2024. -/
theorem add_months_clamps_witness :
    Date.Valid ⟨2024, 1, 31⟩ ∧
    Date.add_months ⟨2024, 1, 31⟩ 1 = Except.ok ⟨2024, 2, 29⟩ ∧
    (∃ nm yo, Month.add_months (⟨2024, 1, 31⟩ : Date).month 1 = Except.ok (nm, yo) ∧
      Year.add_years (⟨2024, 1, 31⟩ : Date).year yo =
        Except.ok (⟨2024, 2, 29⟩ : Date).year ∧
      (⟨2024, 2, 29⟩ : Date).month = nm ∧
      (⟨2024, 2, 29⟩ : Date).day =
        min (⟨2024, 1, 31⟩ : Date).day
          (Month.days_in_month nm (⟨2024, 2, 29⟩ : Date).year)) :=
  ⟨by decide, by decide,
   (add_months_clamps ⟨2024, 1, 31⟩ 1 (by decide)).1 ⟨2024, 2, 29⟩ (by decide)⟩

/-- C6: day_difference is symmetric and vanishes on equal arguments, and
month_difference and year_difference are symmetric and non-negative for
every rounding mode. -/
theorem date_differences_symmetric_nonneg (a b : Date) (ha : a.Valid)
    (hb : b.Valid) (r : Rounding) :
    Date.day_difference a b = Date.day_difference b a ∧
    Date.day_difference a a = 0 ∧
    Date.month_difference a b r = Date.month_difference b a r ∧
    0 ≤ Date.month_difference a b r ∧
    Date.year_difference a b r = Date.year_difference b a r ∧
    0 ≤ Date.year_difference a b r :=
  ⟨day_difference_symm a b, day_difference_self a,
   month_difference_symm a b r,
   month_difference_nonneg a b ha.2.2.1 ha.2.2.2.1 hb.2.2.1 hb.2.2.2.1 r,
   year_difference_symm a b r, year_difference_nonneg a b r⟩

/-- Witness for C6 at 31 Jan 2024 and 1 Mar 2024 with Nearest rounding. -/
theorem date_differences_symmetric_nonneg_witness :
    Date.Valid ⟨2024, 1, 31⟩ ∧ Date.Valid ⟨2024, 3, 1⟩ ∧
    (Date.day_difference ⟨2024, 1, 31⟩ ⟨2024, 3, 1⟩ =
        Date.day_difference ⟨2024, 3, 1⟩ ⟨2024, 1, 31⟩ ∧
      Date.day_difference ⟨2024, 1, 31⟩ ⟨2024, 1, 31⟩ = 0 ∧
      Date.month_difference ⟨2024, 1, 31⟩ ⟨2024, 3, 1⟩ Rounding.Nearest =
        Date.month_difference ⟨2024, 3, 1⟩ ⟨2024, 1, 31⟩ Rounding.Nearest ∧
      0 ≤ Date.month_difference ⟨2024, 1, 31⟩ ⟨2024, 3, 1⟩ Rounding.Nearest ∧
      Date.year_difference ⟨2024, 1, 31⟩ ⟨2024, 3, 1⟩ Rounding.Nearest =
        Date.year_difference ⟨2024, 3, 1⟩ ⟨2024, 1, 31⟩ Rounding.Nearest ∧
      0 ≤ Date.year_difference ⟨2024, 1, 31⟩ ⟨2024, 3, 1⟩ Rounding.Nearest) :=
  ⟨by decide, by decide,
   date_differences_symmetric_nonneg ⟨2024, 1, 31⟩ ⟨2024, 3, 1⟩ (by decide)
     (by decide) Rounding.Nearest⟩

/-- C7: the statutory pension age lookup reproduces the table verbatim on
every valid birth year, and total_months is years times 12 plus months. -/
theorem pension_age_table_correct (y : Int) (hy : 1900 ≤ y ∧ y ≤ 2100) :
    (y ≤ 1946 → PensionAge.from_birthyear y = ⟨65, 0⟩) ∧
    (1947 ≤ y ∧ y ≤ 1957 → PensionAge.from_birthyear y = ⟨65, y - 1946⟩) ∧
    (y = 1958 → PensionAge.from_birthyear y = ⟨66, 0⟩) ∧
    (1959 ≤ y ∧ y ≤ 1963 → PensionAge.from_birthyear y = ⟨66, 2 * (y - 1958)⟩) ∧
    (1964 ≤ y → PensionAge.from_birthyear y = ⟨67, 0⟩) ∧
    (PensionAge.from_birthyear y).total_months =
      (PensionAge.from_birthyear y).pension_years * 12 +
        (PensionAge.from_birthyear y).pension_months := by
  obtain ⟨hy1, hy2⟩ := hy
  refine ⟨fun h => ?_, fun h => ?_, fun h => ?_, fun h => ?_, fun h => ?_, rfl⟩
  · interval_cases y <;> decide
  · obtain ⟨h1, h2⟩ := h
    interval_cases y <;> decide
  · subst h
    decide
  · obtain ⟨h1, h2⟩ := h
    interval_cases y <;> decide
  · interval_cases y <;> decide

/-- Witness for C7 at birth year 1959. -/
theorem pension_age_table_correct_witness :
    ((1900 : Int) ≤ 1959 ∧ (1959 : Int) ≤ 2100) ∧
    (((1959 : Int) ≤ 1946 → PensionAge.from_birthyear 1959 = ⟨65, 0⟩) ∧
      (1947 ≤ (1959 : Int) ∧ (1959 : Int) ≤ 1957 →
        PensionAge.from_birthyear 1959 = ⟨65, (1959 : Int) - 1946⟩) ∧
      ((1959 : Int) = 1958 → PensionAge.from_birthyear 1959 = ⟨66, 0⟩) ∧
      (1959 ≤ (1959 : Int) ∧ (1959 : Int) ≤ 1963 →
        PensionAge.from_birthyear 1959 = ⟨66, 2 * ((1959 : Int) - 1958)⟩) ∧
      (1964 ≤ (1959 : Int) → PensionAge.from_birthyear 1959 = ⟨67, 0⟩) ∧
      (PensionAge.from_birthyear 1959).total_months =
        (PensionAge.from_birthyear 1959).pension_years * 12 +
          (PensionAge.from_birthyear 1959).pension_months) :=
  ⟨by decide, pension_age_table_correct 1959 (by decide)⟩

/-- C4: for a validly constructed RataTemporis, whenever actual_service
and possible_service both succeed, rata_temporis succeeds with 0 when the
possible service is 0 and with the exact quotient otherwise; a zero
possible service never produces a division error. -/
theorem rata_temporis_correct (bd en ex : Date) (rt : RataTemporis)
    (pa : PensionAge) (acc : Accuracy) (r : Rounding) (m n : Int)
    (_hnew : RataTemporis.new bd en ex = Except.ok rt)
    (hm : rt.actual_service acc r = Except.ok m)
    (hn : rt.possible_service pa acc r = Except.ok n) :
    rt.rata_temporis pa acc r =
      Except.ok (if n = 0 then 0 else (m : Rat) / (n : Rat)) := by
  unfold RataTemporis.rata_temporis
  rw [hm]
  dsimp only
  rw [hn]
  dsimp only
  split_ifs <;> rfl

/-- Witness for C4 with entry equal to the pension date, so the possible
service is 0 and the ratio is the special-cased 0. -/
theorem rata_temporis_correct_witness :
    RataTemporis.new ⟨2000, 1, 1⟩ ⟨2065, 1, 1⟩ ⟨2065, 1, 1⟩ =
      Except.ok ⟨⟨2000, 1, 1⟩, ⟨2065, 1, 1⟩, ⟨2065, 1, 1⟩⟩ ∧
    RataTemporis.actual_service ⟨⟨2000, 1, 1⟩, ⟨2065, 1, 1⟩, ⟨2065, 1, 1⟩⟩
      Accuracy.MonthExact Rounding.Floor = Except.ok 0 ∧
    RataTemporis.possible_service ⟨⟨2000, 1, 1⟩, ⟨2065, 1, 1⟩, ⟨2065, 1, 1⟩⟩
      ⟨65, 0⟩ Accuracy.MonthExact Rounding.Floor = Except.ok 0 ∧
    RataTemporis.rata_temporis ⟨⟨2000, 1, 1⟩, ⟨2065, 1, 1⟩, ⟨2065, 1, 1⟩⟩
      ⟨65, 0⟩ Accuracy.MonthExact Rounding.Floor =
      Except.ok (if (0 : Int) = 0 then 0 else ((0 : Int) : Rat) / ((0 : Int) : Rat)) :=
  ⟨by decide, by decide, by decide,
   rata_temporis_correct ⟨2000, 1, 1⟩ ⟨2065, 1, 1⟩ ⟨2065, 1, 1⟩
     ⟨⟨2000, 1, 1⟩, ⟨2065, 1, 1⟩, ⟨2065, 1, 1⟩⟩ ⟨65, 0⟩ Accuracy.MonthExact
     Rounding.Floor 0 0 (by decide) (by decide) (by decide)⟩
